import Mathlib

/-!
Verification of the ucosiii-rs real-time kernel (a µC/OS-III style RTOS
written in Rust) against its natural-language specification.

The development shallowly embeds the kernel slices the checked claims are
about: the priority bitmap (`src/core/prio.rs`), the per-priority ready
lists and scheduler helpers (`src/core/sched`), the tick wheel and tick
handler (`src/core/time/mod.rs`, `src/core/kernel.rs`), task deletion
(`src/core/task/mod.rs`), kernel init/start (`src/core/kernel.rs`), and the
semaphore and mutex (`src/sync/sem.rs`, `src/sync/mutex.rs`).

Machine integers are modelled as `Nat` with explicit `% 2^32` masks where
overflow matters.  The intrusive doubly-linked lists of TCBs (ready lists,
pend lists, tick-wheel slots) are modelled as `List Nat` of task ids, with
head = list head; removal of a member is `List.erase`.  Hardware context
(the IPSR register read by `is_isr_context`) is a boolean field of the
state.  Blocking calls are modelled up to their suspension point: the
mutations a blocking `pend` performs before the context switch are the
function's result, and the post-wakeup translation of `pend_status` (which
in the program runs only after another context resumes the task) is
represented by a distinct `Blocked` result marker.
-/

set_option maxRecDepth 4000

deriving instance DecidableEq for Except

namespace Ucos

/-- Configuration constants from `src/core/config.rs`. -/
def CFG_PRIO_MAX : Nat := 64

/-- Tick wheel size, `src/core/config.rs`. -/
def CFG_TICK_WHEEL_SIZE : Nat := 16

/-- Idle task priority, `CFG_PRIO_IDLE = (CFG_PRIO_MAX - 1) as u8`. -/
def CFG_PRIO_IDLE : Nat := CFG_PRIO_MAX - 1

/-- Value of `u32::MAX`. -/
def U32_MAX : Nat := 2 ^ 32 - 1

/-- Task state, from `src/core/types.rs` (`OsTaskState`). -/
inductive OsTaskState where
  | Ready
  | Delayed
  | Pend
  | PendTimeout
  | Suspended
  | DelayedSuspended
  | PendSuspended
  | PendTimeoutSuspended
deriving DecidableEq

/-- Pend status, from `src/core/types.rs` (`OsPendStatus`). -/
inductive OsPendStatus where
  | Ok
  | Abort
  | Del
  | Timeout
deriving DecidableEq

/-- Object a task pends on, from `src/core/types.rs` (`OsPendOn`). -/
inductive OsPendOn where
  | Nothing
  | Flag
  | Mutex
  | Queue
  | Semaphore
  | TaskSem
  | TaskQueue
  | Cond
deriving DecidableEq

/-- Kernel object type marker, from `src/core/types.rs` (`OsObjType`). -/
inductive OsObjType where
  | None
  | Flag
  | Mem
  | Mutex
  | Queue
  | Sem
  | Task
  | Timer
deriving DecidableEq

/-- Subset of the error taxonomy of `src/core/error.rs` (`OsError`) used by
the modelled operations. -/
inductive OsError where
  | AcceptIsr
  | CreateIsr
  | PendIsr
  | OsNotRunning
  | OsRunning
  | OsNotInit
  | OsNoAppTask
  | ObjType
  | PendWouldBlock
  | SchedLocked
  | SemOvf
  | MutexNotOwner
  | MutexOvf
  | Timeout
  | PendAbort
  | ObjDel
  | TcbInvalid
  | TaskDelIsr
  | TaskDelIdle
deriving DecidableEq

/-- Option flag `PEND_NON_BLOCKING` (`src/core/types.rs`, `opt` module). -/
def PEND_NON_BLOCKING : Nat := 0x8000

/-- Option flag `POST_NO_SCHED` (`src/core/types.rs`, `opt` module). -/
def POST_NO_SCHED : Nat := 0x8000

/-! ## Priority bitmap (`src/core/prio.rs`) -/

/-- Priority bitmap table: `bitmap: [u32; PRIO_TBL_SIZE]` with
`PRIO_TBL_SIZE = (CFG_PRIO_MAX + 31) / 32 = 2`.  The words are `Nat`s kept
below `2^32`. -/
structure PrioTable where
  bitmap : List Nat
deriving DecidableEq

/-- Value `PrioTable::new()`: all words zero. -/
def PrioTable.new : PrioTable :=
  { bitmap := List.replicate ((CFG_PRIO_MAX + 31) / 32) 0 }

/-- Method `PrioTable::insert`: `bitmap[prio/32] |= 1 << (31 - prio % 32)`. -/
def PrioTable.insert (t : PrioTable) (prio : Nat) : PrioTable :=
  let wordIdx := prio / 32
  let bitPos := 31 - prio % 32
  { bitmap := t.bitmap.set wordIdx (t.bitmap.getD wordIdx 0 ||| (1 <<< bitPos)) }

/-- Method `PrioTable::remove`: `bitmap[prio/32] &= !(1 << (31 - prio % 32))`,
where `!` is 32-bit complement. -/
def PrioTable.remove (t : PrioTable) (prio : Nat) : PrioTable :=
  let wordIdx := prio / 32
  let bitPos := 31 - prio % 32
  { bitmap := t.bitmap.set wordIdx
      (t.bitmap.getD wordIdx 0 &&& (U32_MAX ^^^ (1 <<< bitPos))) }

/-- Fuel-bounded base-2 logarithm; with 32 units of fuel it computes
`Nat.log2` for every `u32` value while staying kernel-reducible. -/
def log2Fuel : Nat → Nat → Nat
  | 0, _ => 0
  | fuel + 1, n => if 2 ≤ n then log2Fuel fuel (n / 2) + 1 else 0

/-- Function `u32::leading_zeros` composed with the guard of
`PrioTable::clz`: returns 32 for 0, else `31 - log2 v` for `v < 2^32`. -/
def clz32 (v : Nat) : Nat :=
  if v = 0 then 32 else 31 - log2Fuel 32 v

/-- Loop body of `PrioTable::get_highest`: walk the words, first non-zero
word `w` at offset `prio` yields `prio + clz(w)`; an empty bitmap yields
`CFG_PRIO_MAX - 1`. -/
def getHighestAux : List Nat → Nat → Nat
  | [], _ => CFG_PRIO_MAX - 1
  | w :: ws, prio => if w ≠ 0 then prio + clz32 w else getHighestAux ws (prio + 32)

/-- Method `PrioTable::get_highest`. -/
def PrioTable.get_highest (t : PrioTable) : Nat :=
  getHighestAux t.bitmap 0

/-- Method `PrioTable::is_set`: test bit `31 - prio % 32` of word `prio/32`. -/
def PrioTable.is_set (t : PrioTable) (prio : Nat) : Bool :=
  (t.bitmap.getD (prio / 32) 0).testBit (31 - prio % 32)

/-- Operation on the priority bitmap, for stating sequence properties. -/
inductive PrioOp where
  | ins (p : Nat)
  | rem (p : Nat)

/-- Application of one bitmap operation. -/
def applyOp (t : PrioTable) (op : PrioOp) : PrioTable :=
  match op with
  | .ins p => t.insert p
  | .rem p => t.remove p

/-- Application of a sequence of bitmap operations to a fresh table. -/
def applyOps (ops : List PrioOp) : PrioTable :=
  ops.foldl applyOp PrioTable.new

/-- Validity of an operation: the priority is below `CFG_PRIO_MAX`. -/
def opValid (op : PrioOp) : Prop :=
  match op with
  | .ins p => p < 64
  | .rem p => p < 64

/-- Abstract effect of one operation on the set of inserted priorities. -/
def prioStep (s : Finset Nat) (op : PrioOp) : Finset Nat :=
  match op with
  | .ins p => insert p s
  | .rem p => s.erase p

/-- Set of currently-inserted priorities after a sequence of operations. -/
def prioSet (ops : List PrioOp) : Finset Nat :=
  ops.foldl prioStep ∅

/-- Representation invariant tying a bitmap table to the abstract set of
inserted priorities: two words, each a `u32`, and bit membership matches
set membership on the valid priority range. -/
def Models (t : PrioTable) (s : Finset Nat) : Prop :=
  ∃ w0 w1, t.bitmap = [w0, w1] ∧ w0 < 2 ^ 32 ∧ w1 < 2 ^ 32 ∧
    (∀ p ∈ s, p < 64) ∧
    (∀ p, p < 64 → (p ∈ s ↔ t.is_set p = true))

instance : DecidablePred opValid := fun op =>
  match op with
  | .ins p => inferInstanceAs (Decidable (p < 64))
  | .rem p => inferInstanceAs (Decidable (p < 64))

/-! ## Task control block, kernel objects and system state -/

/-- Modelled fields of `OsTcb` (`src/core/task/tcb.rs`).  The intrusive
prev/next links are represented by membership of the corresponding
`List Nat` in the system state instead of pointers. -/
structure OsTcb where
  prio : Nat
  base_prio : Nat
  task_state : OsTaskState
  pend_on : OsPendOn
  pend_status : OsPendStatus
  pend_obj : Option OsObjType
  tick_remain : Nat
  tick_wheel_slot : Nat
  suspend_ctr : Nat
deriving DecidableEq

/-- Value `OsTcb::new()` restricted to the modelled fields. -/
def OsTcb.new : OsTcb :=
  { prio := 0
    base_prio := 0
    task_state := OsTaskState.Ready
    pend_on := OsPendOn.Nothing
    pend_status := OsPendStatus.Ok
    pend_obj := none
    tick_remain := 0
    tick_wheel_slot := 0
    suspend_ctr := 0 }

/-- Counting semaphore `OsSem` (`src/sync/sem.rs`): object tag, pend list
(head first) and count.  The count is a `u32` in the source. -/
structure OsSem where
  obj_type : OsObjType
  pend_list : List Nat
  count : Nat
deriving DecidableEq

/-- Mutex `OsMutex` (`src/sync/mutex.rs`): object tag, pend list, owner and
nesting counter (a `u8` in the source). -/
structure OsMutex where
  obj_type : OsObjType
  pend_list : List Nat
  owner : Option Nat
  nesting_ctr : Nat
deriving DecidableEq

/-- Global system state: the kernel flags (`KernelFlags`), scheduler state
(`SchedState`: priority table, ready lists, tick wheel), CPU state
(`CpuState`), one application semaphore and one application mutex.  The
field `isr` models the IPSR-register test `is_isr_context()`. -/
structure Sys where
  tcbs : Nat → OsTcb
  rdy : Nat → List Nat
  prioTbl : PrioTable
  wheel : Nat → List Nat
  sem : OsSem
  mutex : OsMutex
  initialized : Bool
  running : Bool
  int_nesting : Nat
  sched_lock_nesting : Nat
  tick : Nat
  tcb_cur : Option Nat
  prio_cur : Nat
  tcb_high_rdy : Option Nat
  prio_high_rdy : Nat
  isr : Bool

/-- Pointwise update of a task/slot indexed map. -/
def upd {α : Type} (f : Nat → α) (i : Nat) (v : α) : Nat → α :=
  fun j => if j = i then v else f j

/-! ## Scheduler helpers (`src/core/sched/mod.rs`) -/

/-- Function `os_rdy_list_insert`: append the task at the tail of the ready
list of its priority and set the bitmap bit. -/
def os_rdy_list_insert (s : Sys) (t : Nat) : Sys :=
  let prio := (s.tcbs t).prio
  { s with rdy := upd s.rdy prio (s.rdy prio ++ [t])
           prioTbl := s.prioTbl.insert prio }

/-- Function `os_rdy_list_remove`: remove the task from the ready list of
its priority; clear the bitmap bit when the list empties. -/
def os_rdy_list_remove (s : Sys) (t : Nat) : Sys :=
  let prio := (s.tcbs t).prio
  let l := (s.rdy prio).erase t
  { s with rdy := upd s.rdy prio l
           prioTbl := if l.isEmpty then s.prioTbl.remove prio else s.prioTbl }

/-- Function `os_rdy_list_change_prio`: move a task between ready lists,
clearing the old bitmap bit when its list empties, updating `prio`, and
inserting at the tail of the new list (setting that bit). -/
def os_rdy_list_change_prio (s : Sys) (t : Nat) (new_prio : Nat) : Sys :=
  let old_prio := (s.tcbs t).prio
  if old_prio = new_prio then s
  else
    let l := (s.rdy old_prio).erase t
    let s1 := { s with rdy := upd s.rdy old_prio l
                       prioTbl := if l.isEmpty then s.prioTbl.remove old_prio
                                  else s.prioTbl }
    let s2 := { s1 with tcbs := upd s1.tcbs t { s1.tcbs t with prio := new_prio } }
    { s2 with rdy := upd s2.rdy new_prio (s2.rdy new_prio ++ [t])
              prioTbl := s2.prioTbl.insert new_prio }

/-- Function `os_sched` (`src/core/sched/mod.rs`): no-op when not running,
in ISR context, or while the scheduler is locked; otherwise record the
highest-ready task in `prio_high_rdy` / `tcb_high_rdy` (the context-switch
request to the port is outside the model). -/
def os_sched (s : Sys) : Sys :=
  if ¬ s.running then s
  else if s.isr then s
  else if s.sched_lock_nesting > 0 then s
  else
    let high_prio := s.prioTbl.get_highest
    match (s.rdy high_prio).head? with
    | some high_rdy =>
        { s with prio_high_rdy := high_prio, tcb_high_rdy := some high_rdy }
    | none => s

/-! ## Tick wheel (`src/core/kernel.rs`, `SchedState`) -/

/-- Method `SchedState::tick_wheel_insert`: record the slot in the TCB and
push the task at the head of slot `expiry_tick % CFG_TICK_WHEEL_SIZE`. -/
def tick_wheel_insert (s : Sys) (t : Nat) (expiry_tick : Nat) : Sys :=
  let slot := expiry_tick % CFG_TICK_WHEEL_SIZE
  let s1 := { s with tcbs := upd s.tcbs t { s.tcbs t with tick_wheel_slot := slot } }
  { s1 with wheel := upd s1.wheel slot (t :: s1.wheel slot) }

/-- Method `SchedState::tick_wheel_remove`: unlink the task from the slot
recorded in its TCB. -/
def tick_wheel_remove (s : Sys) (t : Nat) : Sys :=
  let slot := (s.tcbs t).tick_wheel_slot
  { s with wheel := upd s.wheel slot ((s.wheel slot).erase t) }

/-! ## Pend lists (`src/sync/sem.rs`, `PendList`) -/

/-- Method `PendList::insert_by_prio`: walk from the head past all entries
whose priority is less than or equal to the new task's, and link the task
before the first entry with a strictly larger priority value. -/
def pend_insert_by_prio (tcbs : Nat → OsTcb) (t : Nat) : List Nat → List Nat
  | [] => [t]
  | c :: rest =>
    if (tcbs t).prio < (tcbs c).prio then t :: c :: rest
    else c :: pend_insert_by_prio tcbs t rest

/-- Result of a modelled potentially-blocking call: an immediate return, or
suspension of the caller inside `os_sched` (`blocked`); the post-wakeup
translation of `pend_status` happens only after another context resumes
the task and is therefore outside a single call's result. -/
inductive PendResult (α : Type) where
  | ok (a : α)
  | err (e : OsError)
  | blocked
deriving DecidableEq

/-- Shared "Block current task" section of `OsSem::pend` and
`OsMutex::pend`: remove the current task from the ready list, set its
pend fields (`pend_on`, `pend_status = Ok`, `pend_obj`,
`tick_remain = timeout`) and its state (`PendTimeout` when `timeout > 0`,
else `Pend`). -/
def block_cur_task (s : Sys) (cur timeout : Nat) (pon : OsPendOn) (obj : OsObjType) : Sys :=
  let s1 := os_rdy_list_remove s cur
  let tcb := { s1.tcbs cur with
                pend_on := pon
                pend_status := OsPendStatus.Ok
                pend_obj := some obj
                tick_remain := timeout
                task_state := if timeout > 0 then OsTaskState.PendTimeout
                              else OsTaskState.Pend }
  { s1 with tcbs := upd s1.tcbs cur tcb }

/-- Priority-inheritance section of `OsMutex::pend`: when the caller's
priority is numerically below the owner's, boost the owner — through
`os_rdy_list_change_prio` when the owner is `Ready`, otherwise by writing
its `prio` field only. -/
def mutex_boost_owner (s : Sys) (cur : Nat) : Sys :=
  let cur_prio := (s.tcbs cur).prio
  match s.mutex.owner with
  | some owner_ptr =>
    if cur_prio < (s.tcbs owner_ptr).prio then
      if (s.tcbs owner_ptr).task_state = OsTaskState.Ready then
        os_rdy_list_change_prio s owner_ptr cur_prio
      else
        let boosted := { s.tcbs owner_ptr with prio := cur_prio }
        { s with tcbs := upd s.tcbs owner_ptr boosted }
    else s
  | none => s

/-! ## Semaphore operations (`src/sync/sem.rs`) -/

/-- Method `OsSem::pend`.  Guard order follows the source: ISR test, running
test, object-type test, then under the critical section the count fast
path, the non-blocking option, the scheduler-lock test, and finally the
blocking path (remove from ready, set pend fields, state `PendTimeout`
when `timeout > 0` else `Pend`, priority-ordered insert into the pend
list, `os_sched`). -/
def sem_pend (s : Sys) (timeout : Nat) (pend_opt : Nat) : Sys × PendResult Nat :=
  if s.isr then (s, .err .PendIsr)
  else if ¬ s.running then (s, .err .OsNotRunning)
  else if s.sem.obj_type ≠ OsObjType.Sem then (s, .err .ObjType)
  else if s.sem.count > 0 then
    ({ s with sem := { s.sem with count := s.sem.count - 1 } },
      .ok (s.sem.count - 1))
  else if pend_opt &&& PEND_NON_BLOCKING ≠ 0 then (s, .err .PendWouldBlock)
  else if s.sched_lock_nesting > 0 then (s, .err .SchedLocked)
  else
    match s.tcb_cur with
    | some cur =>
        let s2 := block_cur_task s cur timeout OsPendOn.Semaphore OsObjType.Sem
        let s3 := { s2 with sem := { s2.sem with
                      pend_list := pend_insert_by_prio s2.tcbs cur s2.sem.pend_list } }
        (os_sched s3, .blocked)
    | none => (os_sched s, .err .TcbInvalid)

/-- Method `OsSem::post`: wake the head waiter of the pend list if any
(clear its pend fields, mark it `Ready`, insert it into the ready list,
reschedule unless `POST_NO_SCHED` or called from ISR), otherwise increment
the count unless it is already `u32::MAX` (`SemOvf`). -/
def sem_post (s : Sys) (post_opt : Nat) : Sys × Except OsError Nat :=
  if s.sem.obj_type ≠ OsObjType.Sem then (s, .error .ObjType)
  else
    match s.sem.pend_list.head? with
    | some t =>
        let tcb := { s.tcbs t with
                      pend_on := OsPendOn.Nothing
                      pend_status := OsPendStatus.Ok
                      pend_obj := none
                      tick_remain := 0
                      task_state := OsTaskState.Ready }
        let s1 := { s with sem := { s.sem with pend_list := s.sem.pend_list.erase t }
                           tcbs := upd s.tcbs t tcb }
        let s2 := os_rdy_list_insert s1 t
        let s3 := if post_opt &&& POST_NO_SCHED = 0 ∧ s.isr = false then os_sched s2
                  else s2
        (s3, .ok s.sem.count)
    | none =>
        if s.sem.count = U32_MAX then (s, .error .SemOvf)
        else ({ s with sem := { s.sem with count := s.sem.count + 1 } },
              .ok (s.sem.count + 1))

/-- Method `OsSem::set`: reject from ISR with `AcceptIsr`, otherwise
overwrite the count. -/
def sem_set (s : Sys) (count : Nat) : Sys × Except OsError Unit :=
  if s.isr then (s, .error .AcceptIsr)
  else ({ s with sem := { s.sem with count := count } }, .ok ())

/-! ## Mutex operations (`src/sync/mutex.rs`) -/

/-- Method `OsMutex::pend`.  Guard order follows the source: ISR, running,
object type, current TCB, free-mutex fast path, recursive-owner path
(`MutexOvf` at nesting `u8::MAX`), non-blocking option, scheduler lock;
then priority inheritance (move a `Ready` owner between ready lists via
`os_rdy_list_change_prio`, otherwise update its `prio` field only) and the
blocking path as for the semaphore. -/
def mutex_pend (s : Sys) (timeout : Nat) (pend_opt : Nat) : Sys × PendResult Unit :=
  if s.isr then (s, .err .PendIsr)
  else if ¬ s.running then (s, .err .OsNotRunning)
  else if s.mutex.obj_type ≠ OsObjType.Mutex then (s, .err .ObjType)
  else
    match s.tcb_cur with
    | none => (s, .err .TcbInvalid)
    | some cur =>
      if s.mutex.owner = none then
        ({ s with mutex := { s.mutex with owner := some cur, nesting_ctr := 1 } },
          .ok ())
      else if s.mutex.owner = some cur then
        if s.mutex.nesting_ctr = 255 then (s, .err .MutexOvf)
        else
          ({ s with mutex := { s.mutex with nesting_ctr := s.mutex.nesting_ctr + 1 } },
            .ok ())
      else if pend_opt &&& PEND_NON_BLOCKING ≠ 0 then (s, .err .PendWouldBlock)
      else if s.sched_lock_nesting > 0 then (s, .err .SchedLocked)
      else
        let s1 := mutex_boost_owner s cur
        let s3 := block_cur_task s1 cur timeout OsPendOn.Mutex OsObjType.Mutex
        let s4 := { s3 with mutex := { s3.mutex with
                      pend_list := pend_insert_by_prio s3.tcbs cur s3.mutex.pend_list } }
        (os_sched s4, .blocked)

/-- Method `OsMutex::post`: owner check, recursive-release fast path, full
unlock (restore the releasing task's priority to `base_prio`, with ready
list surgery when it is `Ready`), then hand-off to the head waiter if any
(else `owner := none`). -/
def mutex_post (s : Sys) (post_opt : Nat) : Sys × Except OsError Unit :=
  if s.isr then (s, .error .AcceptIsr)
  else if ¬ s.running then (s, .error .OsNotRunning)
  else if s.mutex.obj_type ≠ OsObjType.Mutex then (s, .error .ObjType)
  else
    match s.tcb_cur with
    | none => (s, .error .TcbInvalid)
    | some cur =>
      if s.mutex.owner ≠ some cur then (s, .error .MutexNotOwner)
      else if s.mutex.nesting_ctr > 1 then
        ({ s with mutex := { s.mutex with nesting_ctr := s.mutex.nesting_ctr - 1 } },
          .ok ())
      else
        let s1 := { s with mutex := { s.mutex with nesting_ctr := 0 } }
        let s2 :=
          if (s1.tcbs cur).prio ≠ (s1.tcbs cur).base_prio then
            let s1a :=
              if (s1.tcbs cur).task_state = OsTaskState.Ready then
                os_rdy_list_change_prio s1 cur (s1.tcbs cur).base_prio
              else s1
            let restored := { s1a.tcbs cur with prio := (s1a.tcbs cur).base_prio }
            { s1a with tcbs := upd s1a.tcbs cur restored }
          else s1
        match s2.mutex.pend_list.head? with
        | some waiter =>
            let tcb := { s2.tcbs waiter with
                          pend_on := OsPendOn.Nothing
                          pend_status := OsPendStatus.Ok
                          pend_obj := none
                          tick_remain := 0
                          task_state := OsTaskState.Ready }
            let s3 := { s2 with
                        mutex := { s2.mutex with
                          pend_list := s2.mutex.pend_list.erase waiter }
                        tcbs := upd s2.tcbs waiter tcb }
            let s4 := { s3 with mutex := { s3.mutex with
                          owner := some waiter, nesting_ctr := 1 } }
            let s5 := os_rdy_list_insert s4 waiter
            let s6 := if post_opt &&& POST_NO_SCHED = 0 then os_sched s5 else s5
            (s6, .ok ())
        | none =>
            ({ s2 with mutex := { s2.mutex with owner := none } }, .ok ())

/-! ## Task deletion (`src/core/task/mod.rs`) -/

/-- Function `os_task_del`: running and ISR guards, resolve `None` to the
current task, reject the idle priority with `TaskDelIdle`, remove the task
from the ready list of its priority (clearing the bitmap bit when the list
empties), mark the task `Suspended`, and reschedule when it was the
current task.  No other list is touched by the source. -/
def os_task_del (s : Sys) (tcb : Option Nat) : Sys × Except OsError Unit :=
  if ¬ s.running then (s, .error .OsNotRunning)
  else if s.isr then (s, .error .TaskDelIsr)
  else
    match (match tcb with | some p => some p | none => s.tcb_cur) with
    | none => (s, .error .TcbInvalid)
    | some t =>
      if (s.tcbs t).prio = CFG_PRIO_IDLE then (s, .error .TaskDelIdle)
      else
        let s1 := os_rdy_list_remove s t
        let deadTcb := { s1.tcbs t with task_state := OsTaskState.Suspended }
        let s2 := { s1 with tcbs := upd s1.tcbs t deadTcb }
        let s3 := if s.tcb_cur = some t then os_sched s2 else s2
        (s3, .ok ())

/-! ## Kernel init and start (`src/core/kernel.rs`) -/

/-- Identifier used for the statically allocated `IDLE_TCB`. -/
def IDLE_TASK_ID : Nat := 100

/-- Function `os_reset_globals`: `KERNEL.reset()` (flags and counters),
`CPU_STATE` reset, and `SCHED.reset()` (bitmap, ready lists, wheel). -/
def os_reset_globals (s : Sys) : Sys :=
  { s with initialized := false
           running := false
           int_nesting := 0
           sched_lock_nesting := 0
           tick := 0
           tcb_cur := none
           tcb_high_rdy := none
           prio_cur := 0
           prio_high_rdy := 0
           prioTbl := PrioTable.new
           rdy := fun _ => []
           wheel := fun _ => [] }

/-- Function `os_init`: reset the globals, then test `KERNEL.is_running()`
(`OsRunning` branch), then initialize the priority table and ready lists,
create the idle task at `CFG_PRIO_IDLE` via `os_task_create_internal`
(TCB init, `prio`/`base_prio`, state `Ready`, tail insert into the ready
list, bitmap insert), and set the initialized flag. -/
def os_init (s : Sys) : Sys × Except OsError Unit :=
  let s0 := os_reset_globals s
  if s0.running then (s0, .error .OsRunning)
  else
    let s1 := { s0 with prioTbl := PrioTable.new, rdy := fun _ => [] }
    let idle := { OsTcb.new with prio := CFG_PRIO_IDLE
                                 base_prio := CFG_PRIO_IDLE
                                 task_state := OsTaskState.Ready }
    let s2 := { s1 with tcbs := upd s1.tcbs IDLE_TASK_ID idle }
    let s3 := { s2 with rdy := upd s2.rdy CFG_PRIO_IDLE
                          (s2.rdy CFG_PRIO_IDLE ++ [IDLE_TASK_ID])
                        prioTbl := s2.prioTbl.insert CFG_PRIO_IDLE }
    ({ s3 with initialized := true }, .ok ())

/-- Function `os_start`: require initialized and not running; pick the
highest-ready priority into `prio_high_rdy` / `prio_cur`; if its ready
list has a head, record it as current/high-ready and set the running flag
(the systick programming and `os_start_high_rdy` port call that follow do
not alter the modelled state and do not return on hardware); if the list
is empty the critical-section closure returns early and the trailing
`tcb_cur = tcb_high_rdy` assignment still runs. -/
def os_start (s : Sys) : Sys × Except OsError Unit :=
  if ¬ s.initialized then (s, .error .OsNotInit)
  else if s.running then (s, .error .OsRunning)
  else
    let high_prio := s.prioTbl.get_highest
    let s1 := { s with prio_high_rdy := high_prio, prio_cur := high_prio }
    match (s1.rdy high_prio).head? with
    | some head =>
        ({ s1 with tcb_high_rdy := some head, tcb_cur := some head, running := true },
          .ok ())
    | none => ({ s1 with tcb_cur := s1.tcb_high_rdy }, .ok ())

/-! ## Tick handler (`src/core/time/mod.rs`) -/

/-- Loop body of `process_delayed_tasks` for a single TCB of the current
slot: a task with `tick_remain <= CFG_TICK_WHEEL_SIZE` is due — remove it
from the wheel, zero `tick_remain`, and promote `Delayed → Ready`,
`DelayedSuspended → Suspended`, `PendTimeout → Ready` with
`pend_status = Timeout`; otherwise subtract `CFG_TICK_WHEEL_SIZE`. -/
def process_one (s : Sys) (t : Nat) : Sys :=
  if (s.tcbs t).tick_remain ≤ CFG_TICK_WHEEL_SIZE then
    let s1 := tick_wheel_remove s t
    let s2 := { s1 with tcbs := upd s1.tcbs t ({ s1.tcbs t with tick_remain := 0 }) }
    match (s2.tcbs t).task_state with
    | OsTaskState.Delayed =>
        let wokenTcb := { s2.tcbs t with task_state := OsTaskState.Ready }
        let s3 := { s2 with tcbs := upd s2.tcbs t wokenTcb }
        os_rdy_list_insert s3 t
    | OsTaskState.DelayedSuspended =>
        let suspTcb := { s2.tcbs t with task_state := OsTaskState.Suspended }
        { s2 with tcbs := upd s2.tcbs t suspTcb }
    | OsTaskState.PendTimeout =>
        let timedTcb := { s2.tcbs t with task_state := OsTaskState.Ready
                                         pend_status := OsPendStatus.Timeout }
        let s3 := { s2 with tcbs := upd s2.tcbs t timedTcb }
        os_rdy_list_insert s3 t
    | _ => s2
  else
    let agedTcb := { s.tcbs t with
                      tick_remain := (s.tcbs t).tick_remain - CFG_TICK_WHEEL_SIZE }
    { s with tcbs := upd s.tcbs t agedTcb }

/-- Function `process_delayed_tasks`: walk the wheel slot of the current
tick.  The source captures each node's `tick_next_ptr` before processing
it and only ever unlinks the node being processed, so the walk visits
exactly the snapshot of the slot list, modelled as a fold over it. -/
def process_delayed_tasks (s : Sys) : Sys :=
  let slot := s.tick % CFG_TICK_WHEEL_SIZE
  (s.wheel slot).foldl process_one s


/-! ## Concrete states used as failing inputs and witnesses -/

/-- TCB of a freshly created ready task at priority `p`
(`os_task_create` sets `prio`, `base_prio` and state `Ready`). -/
def readyTcb (p : Nat) : OsTcb :=
  { OsTcb.new with prio := p, base_prio := p }

/-- Running system: application task 0 (priority 5) is current and ready,
the idle task `IDLE_TASK_ID` occupies priority 63, the semaphore has
count 0 and no waiter, the mutex is free. -/
def sampleSys : Sys :=
  { tcbs := fun i => if i = 0 then readyTcb 5
            else if i = IDLE_TASK_ID then readyTcb 63 else OsTcb.new
    rdy := fun p => if p = 5 then [0] else if p = 63 then [IDLE_TASK_ID] else []
    prioTbl := (PrioTable.new.insert 5).insert 63
    wheel := fun _ => []
    sem := { obj_type := OsObjType.Sem, pend_list := [], count := 0 }
    mutex := { obj_type := OsObjType.Mutex, pend_list := [], owner := none, nesting_ctr := 0 }
    initialized := true
    running := true
    int_nesting := 0
    sched_lock_nesting := 0
    tick := 0
    tcb_cur := some 0
    prio_cur := 5
    tcb_high_rdy := some 0
    prio_high_rdy := 5
    isr := false }

/-- TCB of task 0 blocked on the semaphore with a timeout: state
`PendTimeout`, residual timeout 3 ticks, recorded wheel slot 3. -/
def ptoTcb : OsTcb :=
  { OsTcb.new with
    prio := 5
    base_prio := 5
    task_state := OsTaskState.PendTimeout
    pend_on := OsPendOn.Semaphore
    pend_obj := some OsObjType.Sem
    tick_remain := 3
    tick_wheel_slot := 3 }

/-- System at tick 3 whose wheel slot 3 holds task 0, a `PendTimeout`
waiter of the semaphore (the semaphore pend list holds task 0); the idle
task is current. -/
def pendTimeoutSys : Sys :=
  { sampleSys with
    tcbs := fun i => if i = 0 then ptoTcb
            else if i = IDLE_TASK_ID then readyTcb 63 else OsTcb.new
    rdy := fun p => if p = 63 then [IDLE_TASK_ID] else []
    prioTbl := PrioTable.new.insert 63
    wheel := fun sl => if sl = 3 then [0] else []
    sem := { obj_type := OsObjType.Sem, pend_list := [0], count := 0 }
    tick := 3
    tcb_cur := some IDLE_TASK_ID
    prio_cur := 63 }

/-- TCB of task 1 blocked without timeout on the semaphore. -/
def pendTcb : OsTcb :=
  { OsTcb.new with
    prio := 10
    base_prio := 10
    task_state := OsTaskState.Pend
    pend_on := OsPendOn.Semaphore
    pend_obj := some OsObjType.Sem }

/-- System in which task 1 (priority 10) pends on the semaphore while
task 0 runs. -/
def delSys : Sys :=
  { sampleSys with
    tcbs := fun i => if i = 0 then readyTcb 5 else if i = 1 then pendTcb
      else if i = IDLE_TASK_ID then readyTcb 63 else OsTcb.new
    sem := { obj_type := OsObjType.Sem, pend_list := [1], count := 0 } }

/-- TCB of the mutex owner in the priority-inheritance scenario: ready at
priority 15. -/
def ownerTcb : OsTcb :=
  { OsTcb.new with prio := 15, base_prio := 15 }

/-- System in which task 1 (priority 15, `Ready`) owns the mutex and the
current task 0 (priority 5) is about to pend on it. -/
def boostSys : Sys :=
  { sampleSys with
    tcbs := fun i => if i = 0 then readyTcb 5 else if i = 1 then ownerTcb
      else if i = IDLE_TASK_ID then readyTcb 63 else OsTcb.new
    rdy := fun p => if p = 5 then [0] else if p = 15 then [1]
           else if p = 63 then [IDLE_TASK_ID] else []
    prioTbl := ((PrioTable.new.insert 5).insert 15).insert 63
    mutex := { obj_type := OsObjType.Mutex, pend_list := [], owner := some 1, nesting_ctr := 1 } }

/-- System in which task 1 (priority 15, `Delayed`, hence not `Ready`)
owns the mutex while the current task 0 (priority 5) pends on it. -/
def boostSleepSys : Sys :=
  { boostSys with
    tcbs := fun i => if i = 0 then readyTcb 5
      else if i = 1 then { ownerTcb with task_state := OsTaskState.Delayed, tick_remain := 50 }
      else if i = IDLE_TASK_ID then readyTcb 63 else OsTcb.new
    rdy := fun p => if p = 5 then [0] else if p = 63 then [IDLE_TASK_ID] else []
    prioTbl := (PrioTable.new.insert 5).insert 63 }

/-! ## Properties -/

lemma log2Fuel_eq (fuel : Nat) : ∀ n, n < 2 ^ fuel → log2Fuel fuel n = Nat.log2 n := by
  induction fuel with
  | zero =>
    intro n h
    have hn : n = 0 := by omega
    subst hn
    rw [Nat.log2]
    simp [log2Fuel]
  | succ f ih =>
    intro n h
    rw [log2Fuel]
    by_cases h2 : 2 ≤ n
    · rw [if_pos h2]
      have hdiv : n / 2 < 2 ^ f := by
        rw [Nat.div_lt_iff_lt_mul (by norm_num)]
        rw [Nat.pow_succ] at h
        omega
      rw [ih (n / 2) hdiv]
      conv_rhs => rw [Nat.log2]
      simp [h2]
    · rw [if_neg h2]
      conv_rhs => rw [Nat.log2]
      simp [h2]

lemma clz32_eq {v : Nat} (h : v < 2 ^ 32) :
    clz32 v = if v = 0 then 32 else 31 - Nat.log2 v := by
  unfold clz32
  rw [log2Fuel_eq 32 v h]

lemma testBit_log2_self {n : Nat} (h : n ≠ 0) : n.testBit n.log2 = true := by
  have h1 := Nat.log2_self_le h
  have h2 : n < 2 ^ (n.log2 + 1) := Nat.lt_log2_self
  have hpos : 0 < 2 ^ n.log2 := Nat.pos_pow_of_pos _ (by norm_num)
  have hdiv : n / 2 ^ n.log2 = 1 := by
    have hlo : 1 ≤ n / 2 ^ n.log2 := (Nat.le_div_iff_mul_le hpos).mpr (by omega)
    have hhi : n / 2 ^ n.log2 < 2 := by
      rw [Nat.div_lt_iff_lt_mul hpos]
      calc n < 2 ^ (n.log2 + 1) := h2
        _ = 2 ^ n.log2 * 2 := by rw [Nat.pow_succ]
        _ = 2 * 2 ^ n.log2 := by ring
    omega
  rw [Nat.testBit_to_div_mod, hdiv]
  decide

lemma le_log2_of_testBit {n k : Nat} (h : n.testBit k = true) : k ≤ n.log2 := by
  have h1 : 2 ^ k ≤ n := Nat.testBit_implies_ge h
  have h0 : n ≠ 0 := by
    have : 0 < 2 ^ k := Nat.pos_pow_of_pos _ (by norm_num)
    omega
  by_contra hlt
  push_neg at hlt
  have : n < 2 ^ k := (Nat.log2_lt h0).mp hlt
  omega

lemma log2_le_31 {w : Nat} (hw : w < 2 ^ 32) (h0 : w ≠ 0) : w.log2 ≤ 31 := by
  have : w.log2 < 32 := (Nat.log2_lt h0).mpr hw
  omega

lemma is_set_pair {t : PrioTable} {w0 w1 : Nat} (hb : t.bitmap = [w0, w1])
    {q : Nat} (hq : q < 64) :
    t.is_set q = (if q < 32 then w0.testBit (31 - q) else w1.testBit (63 - q)) := by
  unfold PrioTable.is_set
  rw [hb]
  by_cases h32 : q < 32
  · have h1 : q / 32 = 0 := Nat.div_eq_of_lt h32
    have h2 : q % 32 = q := Nat.mod_eq_of_lt h32
    simp [h1, h2, h32]
  · have h1 : q / 32 = 1 := by omega
    have h2 : q % 32 = q - 32 := by omega
    have h3 : 31 - (q - 32) = 63 - q := by omega
    simp [h1, h2, h3, h32]

lemma insert_pair {t : PrioTable} {w0 w1 : Nat} (hb : t.bitmap = [w0, w1])
    {p : Nat} (hp : p < 64) :
    (t.insert p).bitmap =
      (if p < 32 then [w0 ||| 2 ^ (31 - p), w1] else [w0, w1 ||| 2 ^ (63 - p)]) := by
  unfold PrioTable.insert
  simp only [hb]
  by_cases h32 : p < 32
  · have h1 : p / 32 = 0 := Nat.div_eq_of_lt h32
    have h2 : p % 32 = p := Nat.mod_eq_of_lt h32
    simp [h1, h2, h32, Nat.shiftLeft_eq]
  · have h1 : p / 32 = 1 := by omega
    have h2 : p % 32 = p - 32 := by omega
    have h3 : 31 - (p - 32) = 63 - p := by omega
    simp [h1, h2, h3, h32, Nat.shiftLeft_eq]

lemma remove_pair {t : PrioTable} {w0 w1 : Nat} (hb : t.bitmap = [w0, w1])
    {p : Nat} (hp : p < 64) :
    (t.remove p).bitmap =
      (if p < 32 then [w0 &&& (U32_MAX ^^^ 2 ^ (31 - p)), w1]
       else [w0, w1 &&& (U32_MAX ^^^ 2 ^ (63 - p))]) := by
  unfold PrioTable.remove
  simp only [hb]
  by_cases h32 : p < 32
  · have h1 : p / 32 = 0 := Nat.div_eq_of_lt h32
    have h2 : p % 32 = p := Nat.mod_eq_of_lt h32
    simp [h1, h2, h32, Nat.shiftLeft_eq]
  · have h1 : p / 32 = 1 := by omega
    have h2 : p % 32 = p - 32 := by omega
    have h3 : 31 - (p - 32) = 63 - p := by omega
    simp [h1, h2, h3, h32, Nat.shiftLeft_eq]

lemma testBit_mask_out {b k : Nat} (hk : k < 32) :
    (U32_MAX ^^^ 2 ^ b).testBit k = !decide (b = k) := by
  have hmax : U32_MAX = 2 ^ 32 - 1 := by norm_num [U32_MAX]
  rw [Nat.testBit_xor, hmax, Nat.testBit_two_pow_sub_one, Nat.testBit_two_pow]
  simp [hk]

lemma models_insert {t : PrioTable} {s : Finset Nat} (hm : Models t s)
    {p : Nat} (hp : p < 64) : Models (t.insert p) (insert p s) := by
  obtain ⟨w0, w1, hb, hw0, hw1, hdom, hmem⟩ := hm
  have hbit : ∀ b, b ≤ 31 → (2 : Nat) ^ b < 2 ^ 32 := by
    intro b hble
    exact Nat.pow_lt_pow_right (by norm_num) (by omega)
  by_cases h32 : p < 32
  · have hb2 : (t.insert p).bitmap = [w0 ||| 2 ^ (31 - p), w1] := by
      rw [insert_pair hb hp]; simp [h32]
    refine ⟨w0 ||| 2 ^ (31 - p), w1, hb2, ?_, hw1, ?_, ?_⟩
    · exact Nat.or_lt_two_pow hw0 (hbit _ (by omega))
    · intro q hq
      rcases Finset.mem_insert.mp hq with h | h
      · omega
      · exact hdom q h
    · intro q hq
      rw [is_set_pair hb2 hq, Finset.mem_insert]
      have hold := hmem q hq
      rw [is_set_pair hb hq] at hold
      by_cases hq32 : q < 32
      · simp only [hq32, if_pos] at hold ⊢
        rw [Nat.testBit_or, Nat.testBit_two_pow]
        have heq : (31 - p = 31 - q) ↔ (q = p) := by omega
        rcases eq_or_ne q p with hqp | hqp
        · simp [hqp]
        · have hne : ¬(31 - p = 31 - q) := fun hc => hqp (heq.mp hc)
          simp [hqp, hne, hold]
      · simp only [hq32, ite_false] at hold ⊢
        have hqp : q ≠ p := by omega
        simp [hqp, hold]
  · have hb2 : (t.insert p).bitmap = [w0, w1 ||| 2 ^ (63 - p)] := by
      rw [insert_pair hb hp]; simp [h32]
    refine ⟨w0, w1 ||| 2 ^ (63 - p), hb2, hw0, ?_, ?_, ?_⟩
    · exact Nat.or_lt_two_pow hw1 (hbit _ (by omega))
    · intro q hq
      rcases Finset.mem_insert.mp hq with h | h
      · omega
      · exact hdom q h
    · intro q hq
      rw [is_set_pair hb2 hq, Finset.mem_insert]
      have hold := hmem q hq
      rw [is_set_pair hb hq] at hold
      by_cases hq32 : q < 32
      · simp only [hq32, if_pos] at hold ⊢
        have hqp : q ≠ p := by omega
        simp [hqp, hold]
      · simp only [hq32, ite_false] at hold ⊢
        rw [Nat.testBit_or, Nat.testBit_two_pow]
        have heq : (63 - p = 63 - q) ↔ (q = p) := by omega
        rcases eq_or_ne q p with hqp | hqp
        · simp [hqp]
        · have hne : ¬(63 - p = 63 - q) := fun hc => hqp (heq.mp hc)
          simp [hqp, hne, hold]

lemma models_remove {t : PrioTable} {s : Finset Nat} (hm : Models t s)
    {p : Nat} (hp : p < 64) : Models (t.remove p) (s.erase p) := by
  obtain ⟨w0, w1, hb, hw0, hw1, hdom, hmem⟩ := hm
  by_cases h32 : p < 32
  · have hb2 : (t.remove p).bitmap = [w0 &&& (U32_MAX ^^^ 2 ^ (31 - p)), w1] := by
      rw [remove_pair hb hp]; simp [h32]
    refine ⟨w0 &&& (U32_MAX ^^^ 2 ^ (31 - p)), w1, hb2, ?_, hw1, ?_, ?_⟩
    · exact Nat.lt_of_le_of_lt Nat.and_le_left hw0
    · intro q hq
      exact hdom q (Finset.mem_of_mem_erase hq)
    · intro q hq
      rw [is_set_pair hb2 hq, Finset.mem_erase]
      have hold := hmem q hq
      rw [is_set_pair hb hq] at hold
      by_cases hq32 : q < 32
      · simp only [hq32, if_pos] at hold ⊢
        rw [Nat.testBit_and, testBit_mask_out (by omega)]
        have heq : (31 - p = 31 - q) ↔ (q = p) := by omega
        rcases eq_or_ne q p with hqp | hqp
        · subst hqp; simp
        · have hne : ¬(31 - p = 31 - q) := fun hc => hqp (heq.mp hc)
          simp [hqp, hne, hold]
      · simp only [hq32, ite_false] at hold ⊢
        have hqp : q ≠ p := by omega
        simp [hqp, hold]
  · have hb2 : (t.remove p).bitmap = [w0, w1 &&& (U32_MAX ^^^ 2 ^ (63 - p))] := by
      rw [remove_pair hb hp]; simp [h32]
    refine ⟨w0, w1 &&& (U32_MAX ^^^ 2 ^ (63 - p)), hb2, hw0, ?_, ?_, ?_⟩
    · exact Nat.lt_of_le_of_lt Nat.and_le_left hw1
    · intro q hq
      exact hdom q (Finset.mem_of_mem_erase hq)
    · intro q hq
      rw [is_set_pair hb2 hq, Finset.mem_erase]
      have hold := hmem q hq
      rw [is_set_pair hb hq] at hold
      by_cases hq32 : q < 32
      · simp only [hq32, if_pos] at hold ⊢
        have hqp : q ≠ p := by omega
        simp [hqp, hold]
      · simp only [hq32, ite_false] at hold ⊢
        rw [Nat.testBit_and, testBit_mask_out (by omega)]
        have heq : (63 - p = 63 - q) ↔ (q = p) := by omega
        rcases eq_or_ne q p with hqp | hqp
        · simp [hqp]
        · have hne : ¬(63 - p = 63 - q) := fun hc => hqp (heq.mp hc)
          simp [hqp, hne, hold]

lemma PrioTable.eq_of_bitmap {t u : PrioTable} (h : t.bitmap = u.bitmap) : t = u := by
  cases t; cases u; simpa using h

lemma get_highest_pair {t : PrioTable} {w0 w1 : Nat} (hb : t.bitmap = [w0, w1]) :
    t.get_highest =
      (if w0 ≠ 0 then clz32 w0 else if w1 ≠ 0 then 32 + clz32 w1 else 63) := by
  unfold PrioTable.get_highest
  rw [hb]
  by_cases h0 : w0 = 0 <;> by_cases h1 : w1 = 0 <;>
    simp [getHighestAux, CFG_PRIO_MAX, h0, h1]

lemma models_new : Models PrioTable.new ∅ := by
  refine ⟨0, 0, ?_, by norm_num, by norm_num, by simp, ?_⟩
  · decide
  · intro p hp
    have hb : PrioTable.new.bitmap = [0, 0] := by decide
    rw [is_set_pair hb hp]
    by_cases h32 : p < 32 <;> simp [h32, Nat.zero_testBit]

lemma get_highest_models {t : PrioTable} {s : Finset Nat} (hm : Models t s) :
    (s = ∅ → t.get_highest = 63) ∧
    (t.get_highest ∈ s ∨ s = ∅) ∧
    (∀ q ∈ s, t.get_highest ≤ q) := by
  obtain ⟨w0, w1, hb, hw0, hw1, hdom, hmem⟩ := hm
  have hiff : ∀ p, p < 64 → (p ∈ s ↔ t.is_set p = true) := hmem
  rw [get_highest_pair hb]
  by_cases h0 : w0 = 0
  · by_cases h1 : w1 = 0
    · have hs : s = ∅ := by
        apply Finset.eq_empty_iff_forall_not_mem.mpr
        intro q hq
        have hq64 := hdom q hq
        have hqs := (hiff q hq64).mp hq
        rw [is_set_pair hb hq64] at hqs
        by_cases hq32 : q < 32 <;> simp [hq32, h0, h1, Nat.zero_testBit] at hqs
      subst hs
      simp [h0, h1]
    · have hl31 : w1.log2 ≤ 31 := log2_le_31 hw1 h1
      have hval : (if w0 ≠ 0 then clz32 w0 else if w1 ≠ 0 then 32 + clz32 w1 else 63)
          = 63 - w1.log2 := by
        rw [clz32_eq hw1]
        simp only [h0, ne_eq, not_true_eq_false, ite_false, h1, not_false_eq_true,
          ite_true]
        omega
      rw [hval]
      have hp : 63 - w1.log2 ∈ s := by
        apply (hiff _ (by omega)).mpr
        rw [is_set_pair hb (by omega : 63 - w1.log2 < 64)]
        have hnlt : ¬(63 - w1.log2 < 32) := by omega
        have hinner : 63 - (63 - w1.log2) = w1.log2 := by omega
        simp only [hnlt, ite_false, hinner]
        exact testBit_log2_self h1
      refine ⟨?_, Or.inl hp, ?_⟩
      · intro hs; exact absurd (hs ▸ hp) (Finset.not_mem_empty _)
      · intro q hq
        have hq64 := hdom q hq
        have hqs := (hiff q hq64).mp hq
        rw [is_set_pair hb hq64] at hqs
        by_cases hq32 : q < 32
        · exfalso; simp [hq32, h0, Nat.zero_testBit] at hqs
        · simp only [hq32, ite_false] at hqs
          have := le_log2_of_testBit hqs
          omega
  · have hl31 : w0.log2 ≤ 31 := log2_le_31 hw0 h0
    have hval : (if w0 ≠ 0 then clz32 w0 else if w1 ≠ 0 then 32 + clz32 w1 else 63)
        = 31 - w0.log2 := by
      rw [clz32_eq hw0]
      simp [h0]
    rw [hval]
    have hp : 31 - w0.log2 ∈ s := by
      apply (hiff _ (by omega)).mpr
      rw [is_set_pair hb (by omega : 31 - w0.log2 < 64)]
      have hlt : 31 - w0.log2 < 32 := by omega
      have hinner : 31 - (31 - w0.log2) = w0.log2 := by omega
      simp only [hlt, ite_true, hinner]
      exact testBit_log2_self h0
    refine ⟨?_, Or.inl hp, ?_⟩
    · intro hs; exact absurd (hs ▸ hp) (Finset.not_mem_empty _)
    · intro q hq
      have hq64 := hdom q hq
      have hqs := (hiff q hq64).mp hq
      rw [is_set_pair hb hq64] at hqs
      by_cases hq32 : q < 32
      · simp only [hq32, ite_true] at hqs
        have := le_log2_of_testBit hqs
        omega
      · omega

lemma models_foldl (ops : List PrioOp) :
    ∀ (t : PrioTable) (s : Finset Nat), Models t s → (∀ op ∈ ops, opValid op) →
    Models (ops.foldl applyOp t) (ops.foldl prioStep s) := by
  induction ops with
  | nil => intro t s hm _; simpa using hm
  | cons op rest ih =>
    intro t s hm hv
    simp only [List.foldl_cons]
    apply ih
    · cases op with
      | ins p => exact models_insert hm (hv _ (List.mem_cons_self _ _))
      | rem p => exact models_remove hm (hv _ (List.mem_cons_self _ _))
    · intro o ho
      exact hv o (List.mem_cons_of_mem _ ho)

lemma insert_idem {t : PrioTable} {w0 w1 : Nat} (hb : t.bitmap = [w0, w1])
    {p : Nat} (hp : p < 64) : (t.insert p).insert p = t.insert p := by
  apply PrioTable.eq_of_bitmap
  by_cases h32 : p < 32
  · have hb2 : (t.insert p).bitmap = [w0 ||| 2 ^ (31 - p), w1] := by
      rw [insert_pair hb hp]; simp [h32]
    rw [insert_pair hb2 hp, hb2]
    simp [h32, Nat.or_assoc, Nat.or_self]
  · have hb2 : (t.insert p).bitmap = [w0, w1 ||| 2 ^ (63 - p)] := by
      rw [insert_pair hb hp]; simp [h32]
    rw [insert_pair hb2 hp, hb2]
    simp [h32, Nat.or_assoc, Nat.or_self]

lemma remove_clears {t : PrioTable} {w0 w1 : Nat} (hb : t.bitmap = [w0, w1])
    {p : Nat} (hp : p < 64) : (t.remove p).is_set p = false := by
  by_cases h32 : p < 32
  · have hb2 : (t.remove p).bitmap = [w0 &&& (U32_MAX ^^^ 2 ^ (31 - p)), w1] := by
      rw [remove_pair hb hp]; simp [h32]
    rw [is_set_pair hb2 hp]
    simp only [h32, ite_true]
    rw [Nat.testBit_and, testBit_mask_out (by omega)]
    simp
  · have hb2 : (t.remove p).bitmap = [w0, w1 &&& (U32_MAX ^^^ 2 ^ (63 - p))] := by
      rw [remove_pair hb hp]; simp [h32]
    rw [is_set_pair hb2 hp]
    simp only [h32, ite_false]
    rw [Nat.testBit_and, testBit_mask_out (by omega)]
    simp

/-- C7: for any sequence of `insert(p)`/`remove(p)` operations on the
priority bitmap (each `p < PRIO_MAX`), `get_highest()` returns the
numerically smallest currently-inserted priority, and `PRIO_MAX - 1 = 63`
when the bitmap is empty; a duplicate `insert` of the same priority has no
further effect, and a single `remove` clears the bit. -/
theorem C7_bitmap_get_highest_correct (ops : List PrioOp)
    (hv : ∀ op ∈ ops, opValid op) :
    (prioSet ops = ∅ → (applyOps ops).get_highest = CFG_PRIO_MAX - 1) ∧
    (prioSet ops ≠ ∅ → (applyOps ops).get_highest ∈ prioSet ops) ∧
    (∀ q ∈ prioSet ops, (applyOps ops).get_highest ≤ q) ∧
    (∀ p, p < 64 → ((applyOps ops).insert p).insert p = (applyOps ops).insert p) ∧
    (∀ p, p < 64 → ((applyOps ops).remove p).is_set p = false) := by
  have hm : Models (applyOps ops) (prioSet ops) :=
    models_foldl ops PrioTable.new ∅ models_new hv
  obtain ⟨hempty, hmem, hmin⟩ := get_highest_models hm
  obtain ⟨w0, w1, hb, -, -, -, -⟩ := hm
  refine ⟨?_, ?_, hmin, ?_, ?_⟩
  · intro hs
    simpa [CFG_PRIO_MAX] using hempty hs
  · intro hs
    rcases hmem with h | h
    · exact h
    · exact absurd h hs
  · intro p hp
    exact insert_idem hb hp
  · intro p hp
    exact remove_clears hb hp

/-- Witness for C7 at the concrete sequence
`insert 5; insert 3; insert 3; remove 3`. -/
theorem C7_bitmap_get_highest_correct_witness :
    (∀ op ∈ [PrioOp.ins 5, PrioOp.ins 3, PrioOp.ins 3, PrioOp.rem 3], opValid op) ∧
    ((prioSet [PrioOp.ins 5, PrioOp.ins 3, PrioOp.ins 3, PrioOp.rem 3] = ∅ →
        (applyOps [PrioOp.ins 5, PrioOp.ins 3, PrioOp.ins 3, PrioOp.rem 3]).get_highest
          = CFG_PRIO_MAX - 1) ∧
      (prioSet [PrioOp.ins 5, PrioOp.ins 3, PrioOp.ins 3, PrioOp.rem 3] ≠ ∅ →
        (applyOps [PrioOp.ins 5, PrioOp.ins 3, PrioOp.ins 3, PrioOp.rem 3]).get_highest
          ∈ prioSet [PrioOp.ins 5, PrioOp.ins 3, PrioOp.ins 3, PrioOp.rem 3]) ∧
      (∀ q ∈ prioSet [PrioOp.ins 5, PrioOp.ins 3, PrioOp.ins 3, PrioOp.rem 3],
        (applyOps [PrioOp.ins 5, PrioOp.ins 3, PrioOp.ins 3, PrioOp.rem 3]).get_highest ≤ q) ∧
      (∀ p, p < 64 →
        ((applyOps [PrioOp.ins 5, PrioOp.ins 3, PrioOp.ins 3, PrioOp.rem 3]).insert p).insert p
          = (applyOps [PrioOp.ins 5, PrioOp.ins 3, PrioOp.ins 3, PrioOp.rem 3]).insert p) ∧
      (∀ p, p < 64 →
        ((applyOps [PrioOp.ins 5, PrioOp.ins 3, PrioOp.ins 3, PrioOp.rem 3]).remove p).is_set p
          = false)) :=
  ⟨by decide, C7_bitmap_get_highest_correct _ (by decide)⟩

lemma upd_same {α : Type} (f : Nat → α) (i : Nat) (v : α) : upd f i v i = v := by
  simp [upd]

lemma upd_other {α : Type} (f : Nat → α) {i j : Nat} (h : j ≠ i) (v : α) :
    upd f i v j = f j := by
  simp [upd, h]

lemma os_sched_eq (s : Sys) :
    ∃ p t, os_sched s = { s with prio_high_rdy := p, tcb_high_rdy := t } := by
  unfold os_sched
  split
  · exact ⟨s.prio_high_rdy, s.tcb_high_rdy, rfl⟩
  · split
    · exact ⟨s.prio_high_rdy, s.tcb_high_rdy, rfl⟩
    · split
      · exact ⟨s.prio_high_rdy, s.tcb_high_rdy, rfl⟩
      · dsimp only
        split
        · exact ⟨_, _, rfl⟩
        · exact ⟨s.prio_high_rdy, s.tcb_high_rdy, rfl⟩

lemma os_sched_wheel (s : Sys) : (os_sched s).wheel = s.wheel := by
  obtain ⟨p, t, h⟩ := os_sched_eq s
  rw [h]

lemma os_sched_tcbs (s : Sys) : (os_sched s).tcbs = s.tcbs := by
  obtain ⟨p, t, h⟩ := os_sched_eq s
  rw [h]

lemma os_sched_rdy (s : Sys) : (os_sched s).rdy = s.rdy := by
  obtain ⟨p, t, h⟩ := os_sched_eq s
  rw [h]

lemma os_sched_prioTbl (s : Sys) : (os_sched s).prioTbl = s.prioTbl := by
  obtain ⟨p, t, h⟩ := os_sched_eq s
  rw [h]

lemma os_sched_sem (s : Sys) : (os_sched s).sem = s.sem := by
  obtain ⟨p, t, h⟩ := os_sched_eq s
  rw [h]

lemma os_sched_mutex (s : Sys) : (os_sched s).mutex = s.mutex := by
  obtain ⟨p, t, h⟩ := os_sched_eq s
  rw [h]

lemma os_sched_running (s : Sys) : (os_sched s).running = s.running := by
  obtain ⟨p, t, h⟩ := os_sched_eq s
  rw [h]

lemma os_sched_isr (s : Sys) : (os_sched s).isr = s.isr := by
  obtain ⟨p, t, h⟩ := os_sched_eq s
  rw [h]

lemma os_sched_tcb_cur (s : Sys) : (os_sched s).tcb_cur = s.tcb_cur := by
  obtain ⟨p, t, h⟩ := os_sched_eq s
  rw [h]

lemma sem_pend_wheel (s : Sys) (timeout pend_opt : Nat) :
    (sem_pend s timeout pend_opt).1.wheel = s.wheel := by
  unfold sem_pend
  repeat' split
  all_goals simp [os_sched_wheel, block_cur_task, os_rdy_list_remove]

lemma os_rdy_list_change_prio_wheel (s : Sys) (t p : Nat) :
    (os_rdy_list_change_prio s t p).wheel = s.wheel := by
  unfold os_rdy_list_change_prio
  dsimp only
  split <;> rfl

lemma mutex_pend_wheel (s : Sys) (timeout pend_opt : Nat) :
    (mutex_pend s timeout pend_opt).1.wheel = s.wheel := by
  unfold mutex_pend mutex_boost_owner
  repeat' split
  all_goals simp [os_sched_wheel, os_rdy_list_change_prio_wheel, block_cur_task,
    os_rdy_list_remove, apply_ite Sys.wheel]

/-- C1: refutation.  The claim says a blocking `sem.pend`/`mutex.pend`
with `timeout > 0` inserts the task into the tick wheel before calling
`schedule()`.  In the source neither pend path ever calls
`tick_wheel_insert`: for every state, timeout and option word the tick
wheel after the call equals the tick wheel before it.  At the concrete
state `sampleSys`, `sem.pend(timeout = 5)` does block the current task
(state `PendTimeout`, `tick_remain = 5`, priority-ordered pend-list
insert) yet every wheel slot stays empty, so the timeout can never
expire. -/
theorem C1_blocking_pend_never_inserts_into_wheel :
    (∀ (s : Sys) (timeout pend_opt : Nat),
        (sem_pend s timeout pend_opt).1.wheel = s.wheel ∧
        (mutex_pend s timeout pend_opt).1.wheel = s.wheel) ∧
    ((sem_pend sampleSys 5 0).2 = PendResult.blocked ∧
      ((sem_pend sampleSys 5 0).1.tcbs 0).task_state = OsTaskState.PendTimeout ∧
      ((sem_pend sampleSys 5 0).1.tcbs 0).tick_remain = 5 ∧
      (sem_pend sampleSys 5 0).1.sem.pend_list = [0] ∧
      ∀ slot : Nat, (sem_pend sampleSys 5 0).1.wheel slot = []) := by
  refine ⟨fun s timeout pend_opt =>
    ⟨sem_pend_wheel s timeout pend_opt, mutex_pend_wheel s timeout pend_opt⟩,
    by decide, by decide, by decide, by decide, ?_⟩
  intro slot
  rw [sem_pend_wheel sampleSys 5 0]
  rfl

/-- C2: refutation of the pend-list part.  At `pendTimeoutSys` the tick
handler processes wheel slot 3 at tick 3 and finds task 0 in state
`PendTimeout` with `tick_remain = 3 ≤ WHEEL_SIZE`: it removes it from the
wheel, zeroes `tick_remain`, sets `pend_status = Timeout`, marks it
`Ready` and inserts it into the ready list — but the semaphore's pend
list still contains task 0 afterwards: `process_delayed_tasks` performs
no pend-list removal. -/
theorem C2_tick_timeout_leaves_task_on_pend_list :
    ((process_delayed_tasks pendTimeoutSys).tcbs 0).task_state = OsTaskState.Ready ∧
    ((process_delayed_tasks pendTimeoutSys).tcbs 0).pend_status = OsPendStatus.Timeout ∧
    ((process_delayed_tasks pendTimeoutSys).tcbs 0).tick_remain = 0 ∧
    (process_delayed_tasks pendTimeoutSys).wheel 3 = [] ∧
    (process_delayed_tasks pendTimeoutSys).rdy 5 = [0] ∧
    (process_delayed_tasks pendTimeoutSys).sem.pend_list = [0] := by
  decide

/-- C4: refutation of the cleanup part.  Deleting task 1, which pends on
the semaphore at `delSys`, marks it `Suspended` but leaves it on the
semaphore's pend list (`os_task_del` removes only from the ready list of
the task's priority); a later `sem.post` then wakes the deleted task and
re-inserts it into the ready set.  The idle-task rejection with
`TaskDelIdle` does hold. -/
theorem C4_task_delete_leaves_pend_list_and_task_can_return :
    (os_task_del delSys (some 1)).2 = Except.ok () ∧
    ((os_task_del delSys (some 1)).1.tcbs 1).task_state = OsTaskState.Suspended ∧
    (os_task_del delSys (some 1)).1.sem.pend_list = [1] ∧
    (os_task_del delSys (some IDLE_TASK_ID)).2 = Except.error OsError.TaskDelIdle ∧
    (sem_post (os_task_del delSys (some 1)).1 0).1.rdy 10 = [1] ∧
    ((sem_post (os_task_del delSys (some 1)).1 0).1.tcbs 1).task_state
      = OsTaskState.Ready := by
  decide

/-- C5: refutation.  `os_init` calls `os_reset_globals()` — which clears
the running flag — before testing `KERNEL.is_running()`, so the
`OsRunning` branch is unreachable: for every state, also one whose
`running` flag is set, `os_init` returns `Ok` and reinitializes the
kernel (initialized flag set, ready lists rebuilt with only the idle
task). -/
theorem C5_os_init_never_returns_os_running (s : Sys) :
    (os_init s).2 = Except.ok () ∧
    (os_init s).1.initialized = true ∧
    (os_init s).1.running = false ∧
    (os_init s).1.rdy CFG_PRIO_IDLE = [IDLE_TASK_ID] := by
  exact ⟨rfl, rfl, rfl, rfl⟩

/-- C6: refutation.  `os_start` can only return `OsNotInit`, `OsRunning`
or `Ok` — the `OsNoAppTask` error promised by its documentation is never
produced; started on a freshly initialized kernel that has no application
task at all, it happily starts multitasking with the idle task as the
highest-ready task. -/
theorem C6_os_start_never_returns_no_app_task :
    (∀ s : Sys, (os_start s).2 ≠ Except.error OsError.OsNoAppTask) ∧
    (os_start (os_init sampleSys).1).2 = Except.ok () ∧
    (os_start (os_init sampleSys).1).1.running = true ∧
    (os_start (os_init sampleSys).1).1.prio_cur = CFG_PRIO_IDLE := by
  refine ⟨?_, by decide, by decide, by decide⟩
  intro s
  unfold os_start
  split
  · simp
  · split
    · simp
    · dsimp only
      split <;> simp

/-- C10: confirmed.  `OsSem::set` rejects only the ISR context with
`AcceptIsr` (leaving the state untouched); otherwise it overwrites the
count unconditionally, for any current count, any new value and any pend
list, and it never modifies the pend list, any TCB, the ready lists or
the wheel. -/
theorem C10_sem_set_unconditional_overwrite (s : Sys) (c : Nat) :
    (sem_set s c).1.sem.pend_list = s.sem.pend_list ∧
    (sem_set s c).1.tcbs = s.tcbs ∧
    (sem_set s c).1.rdy = s.rdy ∧
    (sem_set s c).1.wheel = s.wheel ∧
    (sem_set s c).1.mutex = s.mutex ∧
    (s.isr = false →
      sem_set s c = ({ s with sem := { s.sem with count := c } }, Except.ok ())) ∧
    (s.isr = true → sem_set s c = (s, Except.error OsError.AcceptIsr)) := by
  unfold sem_set
  by_cases h : s.isr = true <;> simp [h]

/-- C8: confirmed.  With the call-context guards satisfied (not in ISR,
kernel running, object tag `Sem`): a pend with `count > 0` decrements the
count by exactly one and returns the new count, leaving the pend list
alone; a non-blocking pend with `count = 0` returns `PendWouldBlock` and
leaves the whole state unchanged; a post with an empty pend list and
`count = u32::MAX` returns `SemOvf` leaving the state unchanged; a post
with an empty pend list and a smaller count increments it by exactly one
and returns the new count. -/
theorem C8_sem_counting_semantics (s : Sys) (timeout pend_opt post_opt : Nat)
    (hisr : s.isr = false) (hrun : s.running = true)
    (hobj : s.sem.obj_type = OsObjType.Sem) :
    (0 < s.sem.count →
      (sem_pend s timeout pend_opt).2 = PendResult.ok (s.sem.count - 1) ∧
      (sem_pend s timeout pend_opt).1.sem.count = s.sem.count - 1 ∧
      (sem_pend s timeout pend_opt).1.sem.pend_list = s.sem.pend_list) ∧
    (s.sem.count = 0 → pend_opt &&& PEND_NON_BLOCKING ≠ 0 →
      sem_pend s timeout pend_opt = (s, PendResult.err OsError.PendWouldBlock)) ∧
    (s.sem.pend_list = [] → s.sem.count = U32_MAX →
      sem_post s post_opt = (s, Except.error OsError.SemOvf)) ∧
    (s.sem.pend_list = [] → s.sem.count ≠ U32_MAX →
      (sem_post s post_opt).2 = Except.ok (s.sem.count + 1) ∧
      (sem_post s post_opt).1.sem.count = s.sem.count + 1 ∧
      (sem_post s post_opt).1.sem.pend_list = []) := by
  refine ⟨?_, ?_, ?_, ?_⟩
  · intro hc
    unfold sem_pend
    simp [hisr, hrun, hobj, hc]
  · intro hc hnb
    unfold sem_pend
    simp [hisr, hrun, hobj, hc, hnb]
  · intro hpl hmax
    unfold sem_post
    simp [hobj, hpl, hmax]
  · intro hpl hmax
    unfold sem_post
    simp [hobj, hpl, hmax]

/-- Witness for C8 at the concrete state `sampleSys` with the count set to
3 (guards discharged by evaluation). -/
theorem C8_sem_counting_semantics_witness :
    (0 < ({ sampleSys with sem := { sampleSys.sem with count := 3 } } : Sys).sem.count →
      (sem_pend { sampleSys with sem := { sampleSys.sem with count := 3 } } 0 0).2
          = PendResult.ok (({ sampleSys with sem := { sampleSys.sem with count := 3 } } : Sys).sem.count - 1) ∧
      (sem_pend { sampleSys with sem := { sampleSys.sem with count := 3 } } 0 0).1.sem.count
          = ({ sampleSys with sem := { sampleSys.sem with count := 3 } } : Sys).sem.count - 1 ∧
      (sem_pend { sampleSys with sem := { sampleSys.sem with count := 3 } } 0 0).1.sem.pend_list
          = ({ sampleSys with sem := { sampleSys.sem with count := 3 } } : Sys).sem.pend_list) ∧
    (({ sampleSys with sem := { sampleSys.sem with count := 3 } } : Sys).sem.count = 0 →
      0 &&& PEND_NON_BLOCKING ≠ 0 →
      sem_pend { sampleSys with sem := { sampleSys.sem with count := 3 } } 0 0
          = ({ sampleSys with sem := { sampleSys.sem with count := 3 } }, PendResult.err OsError.PendWouldBlock)) ∧
    (({ sampleSys with sem := { sampleSys.sem with count := 3 } } : Sys).sem.pend_list = [] →
      ({ sampleSys with sem := { sampleSys.sem with count := 3 } } : Sys).sem.count = U32_MAX →
      sem_post { sampleSys with sem := { sampleSys.sem with count := 3 } } 0
          = ({ sampleSys with sem := { sampleSys.sem with count := 3 } }, Except.error OsError.SemOvf)) ∧
    (({ sampleSys with sem := { sampleSys.sem with count := 3 } } : Sys).sem.pend_list = [] →
      ({ sampleSys with sem := { sampleSys.sem with count := 3 } } : Sys).sem.count ≠ U32_MAX →
      (sem_post { sampleSys with sem := { sampleSys.sem with count := 3 } } 0).2
          = Except.ok (({ sampleSys with sem := { sampleSys.sem with count := 3 } } : Sys).sem.count + 1) ∧
      (sem_post { sampleSys with sem := { sampleSys.sem with count := 3 } } 0).1.sem.count
          = ({ sampleSys with sem := { sampleSys.sem with count := 3 } } : Sys).sem.count + 1 ∧
      (sem_post { sampleSys with sem := { sampleSys.sem with count := 3 } } 0).1.sem.pend_list = []) :=
  C8_sem_counting_semantics { sampleSys with sem := { sampleSys.sem with count := 3 } }
    0 0 0 rfl rfl rfl

lemma os_rdy_list_change_prio_mutex (s : Sys) (t p : Nat) :
    (os_rdy_list_change_prio s t p).mutex = s.mutex := by
  unfold os_rdy_list_change_prio
  dsimp only
  split <;> rfl

lemma os_rdy_list_change_prio_tcb_self (s : Sys) (t p : Nat) :
    ((os_rdy_list_change_prio s t p).tcbs t).prio = p ∧
    ((os_rdy_list_change_prio s t p).tcbs t).base_prio = (s.tcbs t).base_prio := by
  unfold os_rdy_list_change_prio
  dsimp only
  split
  · rename_i h
    exact ⟨h, rfl⟩
  · simp [upd_same]

lemma mutex_post_unlock (u : Sys) (post_opt : Nat) (t : Nat)
    (hisr : u.isr = false) (hrun : u.running = true)
    (hobj : u.mutex.obj_type = OsObjType.Mutex)
    (hcur : u.tcb_cur = some t)
    (hown : u.mutex.owner = some t)
    (hnest : u.mutex.nesting_ctr = 1)
    (hpl : u.mutex.pend_list = []) :
    (mutex_post u post_opt).2 = Except.ok () ∧
    (mutex_post u post_opt).1.mutex.owner = none ∧
    (mutex_post u post_opt).1.mutex.nesting_ctr = 0 ∧
    ((mutex_post u post_opt).1.tcbs t).prio
      = ((mutex_post u post_opt).1.tcbs t).base_prio := by
  unfold mutex_post
  by_cases hpb : (u.tcbs t).prio = (u.tcbs t).base_prio
  · simp [hisr, hrun, hobj, hcur, hown, hnest, hpl, hpb]
  · by_cases hready : (u.tcbs t).task_state = OsTaskState.Ready
    · simp [hisr, hrun, hobj, hcur, hown, hnest, hpl, hpb, hready,
        os_rdy_list_change_prio_mutex, upd_same]
    · simp [hisr, hrun, hobj, hcur, hown, hnest, hpl, hpb, hready, upd_same]


/-- C9: confirmed.  A task that acquires a free mutex with a single pend
and posts it back while no other task waits ends with `owner = None`,
`nesting = 0`, and its priority equal to its base priority. -/
theorem C9_mutex_uncontended_roundtrip (s : Sys) (timeout pend_opt post_opt t : Nat)
    (hisr : s.isr = false) (hrun : s.running = true)
    (hobj : s.mutex.obj_type = OsObjType.Mutex)
    (hcur : s.tcb_cur = some t)
    (hown : s.mutex.owner = none)
    (hpl : s.mutex.pend_list = []) :
    (mutex_pend s timeout pend_opt).2 = PendResult.ok () ∧
    (mutex_pend s timeout pend_opt).1.mutex.owner = some t ∧
    (mutex_pend s timeout pend_opt).1.mutex.nesting_ctr = 1 ∧
    (mutex_post (mutex_pend s timeout pend_opt).1 post_opt).2 = Except.ok () ∧
    (mutex_post (mutex_pend s timeout pend_opt).1 post_opt).1.mutex.owner = none ∧
    (mutex_post (mutex_pend s timeout pend_opt).1 post_opt).1.mutex.nesting_ctr = 0 ∧
    ((mutex_post (mutex_pend s timeout pend_opt).1 post_opt).1.tcbs t).prio
      = ((mutex_post (mutex_pend s timeout pend_opt).1 post_opt).1.tcbs t).base_prio := by
  have hpend : mutex_pend s timeout pend_opt
      = ({ s with mutex := { s.mutex with owner := some t, nesting_ctr := 1 } },
         PendResult.ok ()) := by
    unfold mutex_pend
    simp [hisr, hrun, hobj, hcur, hown]
  rw [hpend]
  refine ⟨rfl, rfl, rfl, ?_⟩
  exact mutex_post_unlock _ post_opt t hisr hrun hobj hcur rfl rfl hpl

/-- Witness for C9 at `sampleSys` with task 0 as the caller. -/
theorem C9_mutex_uncontended_roundtrip_witness :
    (mutex_pend sampleSys 0 0).2 = PendResult.ok () ∧
    (mutex_pend sampleSys 0 0).1.mutex.owner = some 0 ∧
    (mutex_pend sampleSys 0 0).1.mutex.nesting_ctr = 1 ∧
    (mutex_post (mutex_pend sampleSys 0 0).1 0).2 = Except.ok () ∧
    (mutex_post (mutex_pend sampleSys 0 0).1 0).1.mutex.owner = none ∧
    (mutex_post (mutex_pend sampleSys 0 0).1 0).1.mutex.nesting_ctr = 0 ∧
    ((mutex_post (mutex_pend sampleSys 0 0).1 0).1.tcbs 0).prio
      = ((mutex_post (mutex_pend sampleSys 0 0).1 0).1.tcbs 0).base_prio :=
  C9_mutex_uncontended_roundtrip sampleSys 0 0 0 0 rfl rfl rfl rfl rfl rfl


lemma insert_sets {t : PrioTable} {w0 w1 : Nat} (hb : t.bitmap = [w0, w1])
    {p : Nat} (hp : p < 64) : (t.insert p).is_set p = true := by
  by_cases h32 : p < 32
  · have hb2 : (t.insert p).bitmap = [w0 ||| 2 ^ (31 - p), w1] := by
      rw [insert_pair hb hp]; simp [h32]
    rw [is_set_pair hb2 hp]
    simp only [h32, ite_true]
    rw [Nat.testBit_or, Nat.testBit_two_pow]
    simp
  · have hb2 : (t.insert p).bitmap = [w0, w1 ||| 2 ^ (63 - p)] := by
      rw [insert_pair hb hp]; simp [h32]
    rw [is_set_pair hb2 hp]
    simp only [h32, ite_false]
    rw [Nat.testBit_or, Nat.testBit_two_pow]
    simp

lemma is_set_insert_other {t : PrioTable} {w0 w1 : Nat} (hb : t.bitmap = [w0, w1])
    {p q : Nat} (hp : p < 64) (hq : q < 64) (hqp : q ≠ p) :
    (t.insert p).is_set q = t.is_set q := by
  by_cases h32 : p < 32
  · have hb2 : (t.insert p).bitmap = [w0 ||| 2 ^ (31 - p), w1] := by
      rw [insert_pair hb hp]; simp [h32]
    rw [is_set_pair hb2 hq, is_set_pair hb hq]
    by_cases hq32 : q < 32
    · simp only [hq32, ite_true]
      rw [Nat.testBit_or, Nat.testBit_two_pow]
      have hne32 : ¬(31 - p = 31 - q) := by omega
      simp [hne32]
    · simp [hq32]
  · have hb2 : (t.insert p).bitmap = [w0, w1 ||| 2 ^ (63 - p)] := by
      rw [insert_pair hb hp]; simp [h32]
    rw [is_set_pair hb2 hq, is_set_pair hb hq]
    by_cases hq32 : q < 32
    · simp [hq32]
    · simp only [hq32, ite_false]
      rw [Nat.testBit_or, Nat.testBit_two_pow]
      have hne32 : ¬(63 - p = 63 - q) := by omega
      simp [hne32]

lemma pair_remove {t : PrioTable} {w0 w1 : Nat} (hb : t.bitmap = [w0, w1])
    {p : Nat} (hp : p < 64) : ∃ u v, (t.remove p).bitmap = [u, v] := by
  rw [remove_pair hb hp]
  by_cases h32 : p < 32
  · refine ⟨w0 &&& (U32_MAX ^^^ 2 ^ (31 - p)), w1, ?_⟩
    simp [h32]
  · refine ⟨w0, w1 &&& (U32_MAX ^^^ 2 ^ (63 - p)), ?_⟩
    simp [h32]

lemma os_rdy_list_change_prio_of_ne (s : Sys) (t p : Nat)
    (h : ¬ (s.tcbs t).prio = p) :
    os_rdy_list_change_prio s t p =
      { s with
        tcbs := upd s.tcbs t { s.tcbs t with prio := p }
        rdy := upd (upd s.rdy ((s.tcbs t).prio) ((s.rdy ((s.tcbs t).prio)).erase t)) p
               ((upd s.rdy ((s.tcbs t).prio) ((s.rdy ((s.tcbs t).prio)).erase t)) p ++ [t])
        prioTbl := (if ((s.rdy ((s.tcbs t).prio)).erase t).isEmpty
                    then s.prioTbl.remove ((s.tcbs t).prio) else s.prioTbl).insert p } := by
  unfold os_rdy_list_change_prio
  dsimp only
  rw [if_neg h]

lemma block_cur_task_eq (s : Sys) (cur timeout : Nat) (pon : OsPendOn) (obj : OsObjType) :
    block_cur_task s cur timeout pon obj =
      { s with
        rdy := upd s.rdy ((s.tcbs cur).prio) ((s.rdy ((s.tcbs cur).prio)).erase cur)
        prioTbl := if ((s.rdy ((s.tcbs cur).prio)).erase cur).isEmpty
                   then s.prioTbl.remove ((s.tcbs cur).prio) else s.prioTbl
        tcbs := upd s.tcbs cur { s.tcbs cur with
                  pend_on := pon
                  pend_status := OsPendStatus.Ok
                  pend_obj := some obj
                  tick_remain := timeout
                  task_state := if timeout > 0 then OsTaskState.PendTimeout
                                else OsTaskState.Pend } } := rfl


/-- C3: confirmed.  When a task pends on a mutex whose owner has a
numerically larger (worse) priority, the owner is boosted to the caller's
priority before the caller blocks: a `Ready` owner is moved out of its old
priority's ready list (the bitmap bit of that priority is cleared when the
list empties), gets `prio` updated, and is appended at the tail of the new
priority's ready list with that bit set; an owner that is not `Ready` gets
only its `prio` field updated, all ready lists other than the caller's own
staying untouched. -/
theorem C3_mutex_priority_inheritance (s : Sys) (timeout pend_opt cur ow w0 w1 : Nat)
    (hisr : s.isr = false) (hrun : s.running = true)
    (hobj : s.mutex.obj_type = OsObjType.Mutex)
    (hcur : s.tcb_cur = some cur)
    (hown : s.mutex.owner = some ow)
    (hne : ow ≠ cur)
    (hnb : pend_opt &&& PEND_NON_BLOCKING = 0)
    (hlock : s.sched_lock_nesting = 0)
    (hboost : (s.tcbs cur).prio < (s.tcbs ow).prio)
    (hb : s.prioTbl.bitmap = [w0, w1])
    (hop : (s.tcbs ow).prio < 64) :
    (mutex_pend s timeout pend_opt).2 = PendResult.blocked ∧
    (mutex_pend s timeout pend_opt).1.tcbs ow
        = { s.tcbs ow with prio := (s.tcbs cur).prio } ∧
    ((s.tcbs ow).task_state = OsTaskState.Ready →
      (mutex_pend s timeout pend_opt).1.rdy ((s.tcbs ow).prio)
          = (s.rdy ((s.tcbs ow).prio)).erase ow ∧
      (((s.rdy ((s.tcbs ow).prio)).erase ow).isEmpty = true →
        (mutex_pend s timeout pend_opt).1.prioTbl.is_set ((s.tcbs ow).prio) = false) ∧
      (mutex_pend s timeout pend_opt).1.rdy ((s.tcbs cur).prio)
          = ((s.rdy ((s.tcbs cur).prio)) ++ [ow]).erase cur ∧
      (mutex_pend s timeout pend_opt).1.prioTbl.is_set ((s.tcbs cur).prio) = true) ∧
    ((s.tcbs ow).task_state ≠ OsTaskState.Ready →
      ∀ q, q ≠ (s.tcbs cur).prio → (mutex_pend s timeout pend_opt).1.rdy q = s.rdy q) := by
  have hops : ¬ ((s.tcbs ow).prio = (s.tcbs cur).prio) := by omega
  have hne2 : cur ≠ ow := Ne.symm hne
  have hP1 : (mutex_pend s timeout pend_opt).1
      = os_sched { block_cur_task (mutex_boost_owner s cur) cur timeout
                     OsPendOn.Mutex OsObjType.Mutex with
          mutex := { (block_cur_task (mutex_boost_owner s cur) cur timeout
                       OsPendOn.Mutex OsObjType.Mutex).mutex with
            pend_list := pend_insert_by_prio
              (block_cur_task (mutex_boost_owner s cur) cur timeout
                OsPendOn.Mutex OsObjType.Mutex).tcbs cur
              (block_cur_task (mutex_boost_owner s cur) cur timeout
                OsPendOn.Mutex OsObjType.Mutex).mutex.pend_list } } := by
    unfold mutex_pend
    simp [hisr, hrun, hobj, hcur, hown, hne, hnb, hlock]
  have hPres : (mutex_pend s timeout pend_opt).2 = PendResult.blocked := by
    unfold mutex_pend
    simp [hisr, hrun, hobj, hcur, hown, hne, hnb, hlock]
  have hcp64 : (s.tcbs cur).prio < 64 := by omega
  have hops2 : ¬ ((s.tcbs cur).prio = (s.tcbs ow).prio) := by omega
  rw [hP1]
  rw [os_sched_tcbs, os_sched_rdy, os_sched_prioTbl]
  by_cases hready : (s.tcbs ow).task_state = OsTaskState.Ready
  · have hbo : mutex_boost_owner s cur
        = os_rdy_list_change_prio s ow ((s.tcbs cur).prio) := by
      unfold mutex_boost_owner
      simp [hown, hboost, hready]
    have hL2 : (((s.rdy ((s.tcbs cur).prio)) ++ [ow]).erase cur).isEmpty = false := by
      rw [List.isEmpty_eq_false]
      apply List.ne_nil_of_mem (a := ow)
      rw [List.mem_erase_of_ne hne]
      exact List.mem_append_right _ (by simp)
    refine ⟨hPres, ?_, ?_, ?_⟩
    · simp [hbo, os_rdy_list_change_prio_of_ne s ow _ hops, block_cur_task_eq,
        upd_same, upd_other, hne, hne2, hops, hops2]
    · intro _
      refine ⟨?_, ?_, ?_, ?_⟩
      · simp [hbo, os_rdy_list_change_prio_of_ne s ow _ hops, block_cur_task_eq,
          upd_same, upd_other, hne, hne2, hops, hops2]
      · intro hEmpty
        obtain ⟨u, v, hb2⟩ := pair_remove hb hop
        simp [hbo, os_rdy_list_change_prio_of_ne s ow _ hops, block_cur_task_eq,
          upd_same, upd_other, hne, hne2, hops, hops2, hL2, hEmpty,
          is_set_insert_other hb2 hcp64 hop hops, remove_clears hb hop]
      · simp [hbo, os_rdy_list_change_prio_of_ne s ow _ hops, block_cur_task_eq,
          upd_same, upd_other, hne, hne2, hops, hops2]
      · by_cases hEmpty : ((s.rdy ((s.tcbs ow).prio)).erase ow).isEmpty = true
        · obtain ⟨u, v, hb2⟩ := pair_remove hb hop
          simp [hbo, os_rdy_list_change_prio_of_ne s ow _ hops, block_cur_task_eq,
            upd_same, upd_other, hne, hne2, hops, hops2, hL2, hEmpty,
            insert_sets hb2 hcp64]
        · have hEmptyF : ((s.rdy ((s.tcbs ow).prio)).erase ow).isEmpty = false := by
            revert hEmpty
            cases ((s.rdy ((s.tcbs ow).prio)).erase ow).isEmpty <;> simp
          simp [hbo, os_rdy_list_change_prio_of_ne s ow _ hops, block_cur_task_eq,
            upd_same, upd_other, hne, hne2, hops, hops2, hL2, hEmptyF,
            insert_sets hb hcp64]
    · intro h
      exact absurd hready h
  · have hbo2 : mutex_boost_owner s cur
        = { s with tcbs := upd s.tcbs ow { s.tcbs ow with prio := (s.tcbs cur).prio } } := by
      unfold mutex_boost_owner
      simp [hown, hboost, hready]
    refine ⟨hPres, ?_, ?_, ?_⟩
    · simp [hbo2, block_cur_task_eq, upd_same, upd_other, hne, hne2]
    · intro h
      exact absurd h hready
    · intro _ q hq
      simp [hbo2, block_cur_task_eq, upd_same, upd_other, hne, hne2, hq]


/-- Witness for C3 at `boostSys`: task 0 (priority 5) pends on the mutex
owned by the ready task 1 (priority 15). -/
theorem C3_mutex_priority_inheritance_witness :
    (mutex_pend boostSys 0 0).2 = PendResult.blocked ∧
    (mutex_pend boostSys 0 0).1.tcbs 1
        = { boostSys.tcbs 1 with prio := (boostSys.tcbs 0).prio } ∧
    ((boostSys.tcbs 1).task_state = OsTaskState.Ready →
      (mutex_pend boostSys 0 0).1.rdy ((boostSys.tcbs 1).prio)
          = (boostSys.rdy ((boostSys.tcbs 1).prio)).erase 1 ∧
      (((boostSys.rdy ((boostSys.tcbs 1).prio)).erase 1).isEmpty = true →
        (mutex_pend boostSys 0 0).1.prioTbl.is_set ((boostSys.tcbs 1).prio) = false) ∧
      (mutex_pend boostSys 0 0).1.rdy ((boostSys.tcbs 0).prio)
          = ((boostSys.rdy ((boostSys.tcbs 0).prio)) ++ [1]).erase 0 ∧
      (mutex_pend boostSys 0 0).1.prioTbl.is_set ((boostSys.tcbs 0).prio) = true) ∧
    ((boostSys.tcbs 1).task_state ≠ OsTaskState.Ready →
      ∀ q, q ≠ (boostSys.tcbs 0).prio →
        (mutex_pend boostSys 0 0).1.rdy q = boostSys.rdy q) :=
  C3_mutex_priority_inheritance boostSys 0 0 0 1 67174400 1
    rfl rfl rfl rfl rfl (by decide) rfl rfl (by decide) (by decide) (by decide)

end Ucos
